import Mathlib

/-!
# Verification of the agentibility sequence-execution subsystem

Shallow embedding of the repository code that the claims concern:

* `src/browser/actions.ts` — `performAction` (Action Executor);
* `src/tools/run-sequence.ts` — `handler` (Sequence Executor), its step loop,
  `shouldCaptureConsole`, the collector attach/detach blocks;
* `src/session.ts` — `getSession` / `listSessions` (session registry).

The browser engine (a playwright `Page`) is external to the repository; it is
modelled as an oracle record `PageEnv` whose operations return
`Except String α` — `Except.error msg` models a rejected promise carrying an
`Error` whose `.message` is `msg`, `Except.ok` a resolved one.  JavaScript
wall-clock data (`timestamp`, `duration_ms`, `Date.now()`) and the raw bytes of
screenshots are outside the embedding: events carry no timestamp, and ordering
is list order (which is the code's insertion order).  Strings model JS strings;
the JS falsiness of `undefined` and `''` is modelled by `falsy` on
`Option String`.
-/

/-- JS truthiness test used by the source on optional string parameters:
`!x` is true when `x` is `undefined` or the empty string. -/
def falsy : Option String → Bool
  | none => true
  | some s => s.isEmpty

/-- Oracle for the playwright `Page` the Action Executor drives
(`src/browser/actions.ts`).  Each field models one awaited page operation;
`Except.error` models the promise rejecting.  `url` is the value `page.url()`
returns when read (a synchronous, non-throwing call in playwright);
`title` models `await page.title()`, which can reject. -/
structure PageEnv where
  goto : String → Except String Unit
  goBack : Except String Unit
  goForward : Except String Unit
  click : String → Except String Unit
  fill : String → String → Except String Unit
  selectOption : String → String → Except String Unit
  check : String → Except String Unit
  uncheck : String → Except String Unit
  press : String → String → Except String Unit
  keyboardPress : String → Except String Unit
  evalScrollEl : String → String → Except String Unit
  evalScrollWindow : String → Except String Unit
  waitForLoadState : Except String Unit
  url : String
  title : Except String String

/-- `ActionParams` from `src/browser/actions.ts`.  The `type` field is a
`String` because at runtime the value comes from the tool's JSON input, whose
schema enum also admits values (such as `highlight`) that the TS `ActionType`
union does not list. -/
structure ActionParams where
  type : String
  selector : Option String := none
  value : Option String := none
  url : Option String := none
deriving Repr, DecidableEq

/-- `ActionResult` from `src/browser/actions.ts`. -/
structure ActionResult where
  success : Bool
  action : String
  url : Option String := none
  title : Option String := none
  selector : Option String := none
  direction : Option String := none
  error : Option String := none
deriving Repr, DecidableEq

/-- The `.catch(() => \x7b\x7d)` applied to `page.waitForLoadState(...)`:
the outcome of the wait is discarded entirely. -/
def swallow : Except String Unit → Unit := fun _ => ()

/-- `performAction` from `src/browser/actions.ts` (lines 36–151).  The JS
`switch` is an if-chain on `type`; each case validates its required
parameters (JS falsiness) before any page call, then performs the awaited
page operations in source order.  In the source `result.error` is never
assigned, so the returned record always has `error := none`; failures are
raised (`Except.error`). -/
def performAction (page : PageEnv) (params : ActionParams) : Except String ActionResult :=
  let result : ActionResult := { success := true, action := params.type }
  if params.type = "navigate" then
    if falsy params.url then .error "navigate requires url parameter"
    else do
      page.goto (params.url.getD "")
      let t ← page.title
      pure { result with url := some page.url, title := some t }
  else if params.type = "back" then do
    page.goBack
    let t ← page.title
    pure { result with url := some page.url, title := some t }
  else if params.type = "forward" then do
    page.goForward
    let t ← page.title
    pure { result with url := some page.url, title := some t }
  else if params.type = "click" then
    if falsy params.selector then .error "click requires selector parameter"
    else do
      page.click (params.selector.getD "")
      let _ := swallow page.waitForLoadState
      pure { result with url := some page.url }
  else if params.type = "fill" then
    if falsy params.selector then .error "fill requires selector parameter"
    else if params.value = none then .error "fill requires value parameter"
    else do
      page.fill (params.selector.getD "") (params.value.getD "")
      pure { result with selector := params.selector }
  else if params.type = "select" then
    if falsy params.selector then .error "select requires selector parameter"
    else if params.value = none then .error "select requires value parameter"
    else do
      page.selectOption (params.selector.getD "") (params.value.getD "")
      pure { result with selector := params.selector }
  else if params.type = "check" then
    if falsy params.selector then .error "check requires selector parameter"
    else do
      page.check (params.selector.getD "")
      pure { result with selector := params.selector }
  else if params.type = "uncheck" then
    if falsy params.selector then .error "uncheck requires selector parameter"
    else do
      page.uncheck (params.selector.getD "")
      pure { result with selector := params.selector }
  else if params.type = "press" then
    if falsy params.selector && falsy params.value then
      .error "press requires selector or value (key) parameter"
    else do
      if !(falsy params.selector) then
        page.press (params.selector.getD "")
          (if falsy params.value then "Enter" else params.value.getD "")
      else
        page.keyboardPress (params.value.getD "")
      let _ := swallow page.waitForLoadState
      pure { result with url := some page.url }
  else if params.type = "scroll" then
    let direction := if falsy params.value then "down" else params.value.getD ""
    do
      if !(falsy params.selector) then
        page.evalScrollEl (params.selector.getD "") direction
      else
        page.evalScrollWindow direction
      pure { result with direction := some direction }
  else
    .error ("Unknown action type: " ++ params.type)

/-- The ten action types `performAction` has cases for
(the TS `ActionType` union). -/
def handledActionTypes : List String :=
  ["navigate", "back", "forward", "click", "fill", "select", "check", "uncheck",
   "press", "scroll"]

/-- The `action` enum of the `run_sequence` input schema
(`src/tools/run-sequence.ts` line 165): one more entry, `highlight`. -/
def schemaActionEnum : List String :=
  ["navigate", "back", "forward", "click", "fill", "select", "check", "uncheck",
   "press", "scroll", "highlight"]

/-- The parameter-validation error `performAction` raises before touching the
page, factored out of the `throw` statements at the head of each case
(checks in source order); `none` when the parameters pass validation. -/
def paramError (params : ActionParams) : Option String :=
  if params.type = "navigate" then
    if falsy params.url then some "navigate requires url parameter" else none
  else if params.type = "click" then
    if falsy params.selector then some "click requires selector parameter" else none
  else if params.type = "fill" then
    if falsy params.selector then some "fill requires selector parameter"
    else if params.value = none then some "fill requires value parameter" else none
  else if params.type = "select" then
    if falsy params.selector then some "select requires selector parameter"
    else if params.value = none then some "select requires value parameter" else none
  else if params.type = "check" then
    if falsy params.selector then some "check requires selector parameter" else none
  else if params.type = "uncheck" then
    if falsy params.selector then some "uncheck requires selector parameter" else none
  else if params.type = "press" then
    if falsy params.selector && falsy params.value then
      some "press requires selector or value (key) parameter"
    else none
  else none

/-- A page oracle all of whose operations resolve (the external engine
performs every interaction without error). -/
def EnvTotal (e : PageEnv) : Prop :=
  (∀ u, e.goto u = .ok ()) ∧ e.goBack = .ok () ∧ e.goForward = .ok () ∧
  (∀ s, e.click s = .ok ()) ∧ (∀ s v, e.fill s v = .ok ()) ∧
  (∀ s v, e.selectOption s v = .ok ()) ∧
  (∀ s, e.check s = .ok ()) ∧ (∀ s, e.uncheck s = .ok ()) ∧
  (∀ s v, e.press s v = .ok ()) ∧ (∀ v, e.keyboardPress v = .ok ()) ∧
  (∀ s v, e.evalScrollEl s v = .ok ()) ∧ (∀ v, e.evalScrollWindow v = .ok ()) ∧
  (∃ t, e.title = .ok t)

/-- A concrete page oracle where every operation resolves; used by witnesses. -/
def okEnv : PageEnv where
  goto := fun _ => .ok ()
  goBack := .ok ()
  goForward := .ok ()
  click := fun _ => .ok ()
  fill := fun _ _ => .ok ()
  selectOption := fun _ _ => .ok ()
  check := fun _ => .ok ()
  uncheck := fun _ => .ok ()
  press := fun _ _ => .ok ()
  keyboardPress := fun _ => .ok ()
  evalScrollEl := fun _ _ => .ok ()
  evalScrollWindow := fun _ => .ok ()
  waitForLoadState := .ok ()
  url := "http://example.com/page"
  title := .ok "Example Page"

/-- `AssertionResult` from `src/browser/assertions.ts` (the Assertion
Checker's return record).  `expected`/`actual` are `string | number` in TS;
modelled as strings. -/
structure AssertionRes where
  success : Bool
  condition : String := ""
  expected : Option String := none
  actual : Option String := none
  error : Option String := none
deriving Repr, DecidableEq

/-- JS `x || d` on an optional string: `undefined` and `''` fall back to `d`. -/
def orElseStr (o : Option String) (d : String) : String :=
  match o with
  | some s => if s.isEmpty then d else s
  | none => d

/-- `params` of a query step (`QueryStep.params` in `src/tools/run-sequence.ts`). -/
structure QueryParams where
  selector : Option String := none
  fullPage : Option Bool := none
deriving Repr, DecidableEq

/-- The `data` payload a step's result can carry: the action's result record,
the structured assertion result, the overview capture (abstracted to its
serialized form), or the screenshot's file path and byte size. -/
inductive DataVal where
  | action (r : ActionResult)
  | assertion (r : AssertionRes)
  | overview (o : String)
  | screenshot (path : String) (size : Nat)
deriving Repr, DecidableEq

/-- `Step` from `src/tools/run-sequence.ts`: tagged union of action, assert and
query steps.  An `ActionStep`'s fields `action, selector, value, url` are held
as an `ActionParams` whose `type` is the step's `action` field — exactly the
record `executeAction` passes to `performAction`.  The assertion condition is
opaque to the executor (it is handed to the Assertion Checker unexamined), so
it is modelled as an abstract identifier. -/
inductive Step where
  | action (params : ActionParams)
  | assert (condition : String)
  | query (q : String) (params : Option QueryParams)
deriving Repr, DecidableEq

/-- `StepExecutionResult` from `src/tools/run-sequence.ts` (lines 455–459). -/
structure StepExecutionResult where
  success : Bool
  data : Option DataVal := none
  error : Option String := none
deriving Repr, DecidableEq

/-- Oracle for the collaborators one step dispatch consumes: the page itself,
the Assertion Checker (`checkAssertion` / `describeCondition` from
`src/browser/assertions.ts`), the overview capture (`getOverview`), and the
screenshot captures (`element.screenshot` / `page.screenshot`; the generated
`sequence-<now>.png` filename and the `writeFileSync` of the bytes are folded
into the oracle, which returns the path and byte size). -/
structure StepEnv where
  page : PageEnv
  checkAssertion : String → Except String AssertionRes
  describeCondition : String → String
  getOverview : Except String String
  screenshotEl : String → Except String (String × Nat)
  screenshotPage : Bool → Except String (String × Nat)

/-- `executeAction` from `src/tools/run-sequence.ts` (lines 474–487):
run `performAction`; a returned record with a truthy `error` field becomes a
failing step result, otherwise a success carrying the record as `data`
(in the source `performAction` never sets `error`, so the check is
vacuously on the success path). -/
def executeAction (env : StepEnv) (a : ActionParams) : Except String StepExecutionResult := do
  let result ← performAction env.page a
  match result.error with
  | some e =>
    if e.isEmpty then pure { success := true, data := some (DataVal.action result) }
    else pure { success := false, error := some e }
  | none => pure { success := true, data := some (DataVal.action result) }

/-- `executeAssert` from `src/tools/run-sequence.ts` (lines 489–502). -/
def executeAssert (env : StepEnv) (c : String) : Except String StepExecutionResult := do
  let r ← env.checkAssertion c
  if r.success = false then
    pure { success := false,
           error := some (orElseStr r.error ("Assertion failed: " ++ env.describeCondition c)),
           data := some (DataVal.assertion r) }
  else
    pure { success := true, data := some (DataVal.assertion r) }

/-- `executeQuery` from `src/tools/run-sequence.ts` (lines 504–537).  The
query tag is a `String` (the schema enum is `overview | screenshot`; the
source has a default case for anything else, returning a failure, not a
throw). -/
def executeQuery (env : StepEnv) (q : String) (params : Option QueryParams) :
    Except String StepExecutionResult :=
  if q = "overview" then do
    let o ← env.getOverview
    pure { success := true, data := some (DataVal.overview o) }
  else if q = "screenshot" then
    let p := params.getD {}
    do
      let ps ← if falsy p.selector then env.screenshotPage (p.fullPage.getD false)
               else env.screenshotEl (p.selector.getD "")
      pure { success := true, data := some (DataVal.screenshot ps.1 ps.2) }
  else
    pure { success := false, error := some ("Unknown query type: " ++ q) }

/-- `executeStep` from `src/tools/run-sequence.ts` (lines 461–472). -/
def executeStep (env : StepEnv) (step : Step) : Except String StepExecutionResult :=
  match step with
  | .action a => executeAction env a
  | .assert c => executeAssert env c
  | .query q p => executeQuery env q p

/-- Events the collector callbacks push (`navigation`, `console`, `network`
from the `Event` union of `src/tools/run-sequence.ts`); wall-clock
`timestamp` fields are outside the embedding (ordering is list order). -/
inductive CollectorEvent where
  | navigation (fromUrl toUrl : String)
  | console (level message : String)
  | network (method url : String) (status : Option Nat) (error : Option String)
      (timing : Option Nat)
deriving Repr, DecidableEq

/-- The `Event` union of `src/tools/run-sequence.ts`: a step event (index,
echoed step, result fields) or a collector-originated event. -/
inductive Event where
  | step (index : Nat) (st : Step) (success : Bool) (data : Option DataVal)
      (error : Option String)
  | collector (e : CollectorEvent)
deriving Repr, DecidableEq

/-- `ConsoleCapture` option record. -/
structure ConsoleCapture where
  enabled : Bool
  level : Option String := none
  filter : Option String := none
deriving Repr, DecidableEq

/-- `NetworkCapture` option record. -/
structure NetworkCapture where
  enabled : Bool
  filter : Option String := none
  includeBody : Option Bool := none
deriving Repr, DecidableEq

/-- `RunSequenceOptions`. -/
structure RunSequenceOptions where
  console : Option ConsoleCapture := none
  network : Option NetworkCapture := none
deriving Repr, DecidableEq

/-- `RunSequenceParams`. -/
structure RunSequenceParams where
  session : String
  steps : List Step
  options : Option RunSequenceOptions := none

/-- `options?.console` -/
def consoleOpts (o : Option RunSequenceOptions) : Option ConsoleCapture :=
  match o with
  | some x => x.console
  | none => none

/-- `options?.network` -/
def networkOpts (o : Option RunSequenceOptions) : Option NetworkCapture :=
  match o with
  | some x => x.network
  | none => none

/-- `options?.console?.enabled` (the attach/detach guard). -/
def consoleEnabled (o : Option RunSequenceOptions) : Bool :=
  match consoleOpts o with
  | some c => c.enabled
  | none => false

/-- `options?.network?.enabled` (the attach/detach guard). -/
def networkEnabled (o : Option RunSequenceOptions) : Bool :=
  match networkOpts o with
  | some c => c.enabled
  | none => false

/-- `consoleLevelPriority` record from `src/tools/run-sequence.ts`
(lines 219–226); `none` models a level absent from the record
(the `?? 1` default is applied at the use site). -/
def consoleLevelPriority : String → Option Nat
  | "debug" => some 0
  | "log" => some 1
  | "info" => some 2
  | "warn" => some 3
  | "warning" => some 3
  | "error" => some 4
  | _ => none

/-- The `minPriority` computation inside `shouldCaptureConsole`:
`minLevel === 'warn' ? 3 : minLevel === 'error' ? 4 : 0`. -/
def minPriorityFor (minLevel : String) : Nat :=
  if minLevel = "warn" then 3 else if minLevel = "error" then 4 else 0

/-- `shouldCaptureConsole` from `src/tools/run-sequence.ts` (lines 228–254).
`rt f m` models `new RegExp(f).test(m)`; `none` models the `RegExp`
constructor throwing on an invalid pattern, in which case the filter is
skipped (`catch \x7b\x7d`). -/
def shouldCaptureConsole (rt : String → String → Option Bool)
    (level message : String) (options : Option ConsoleCapture) : Bool :=
  match options with
  | none => false
  | some o =>
    if o.enabled = false then false
    else
      let minLevel := orElseStr o.level "all"
      if minLevel ≠ "all" ∧ (consoleLevelPriority level).getD 1 < minPriorityFor minLevel then
        false
      else if falsy o.filter then true
      else
        match rt (o.filter.getD "") message with
        | some b => b
        | none => true

/-- `shouldCaptureNetwork` from `src/tools/run-sequence.ts` (lines 256–270). -/
def shouldCaptureNetwork (rt : String → String → Option Bool)
    (url : String) (options : Option NetworkCapture) : Bool :=
  match options with
  | none => false
  | some o =>
    if o.enabled = false then false
    else if falsy o.filter then true
    else
      match rt (o.filter.getD "") url with
      | some b => b
      | none => true

/-- The Console events one invocation records from the stream `msgs` of
`(level, text)` console messages the page fires while the sequence runs:
the `consoleHandler` callback filtered by `shouldCaptureConsole`, gated by
the listener being attached at all (line 364:
`if (options?.console?.enabled) page.on('console', consoleHandler)`). -/
def consoleRecorded (rt : String → String → Option Bool)
    (options : Option RunSequenceOptions) (msgs : List (String × String)) :
    List CollectorEvent :=
  if consoleEnabled options then
    (msgs.filter (fun m => shouldCaptureConsole rt m.1 m.2 (consoleOpts options))).map
      (fun m => CollectorEvent.console m.1 m.2)
  else []

/-- The page event channels the handler subscribes to (`page.on(channel, …)`). -/
inductive Channel where
  | console
  | request
  | response
  | requestfailed
  | framenavigated
deriving Repr, DecidableEq

/-- The attach block of `handler` (`src/tools/run-sequence.ts` lines 363–372),
as the list of `page.on` subscriptions it makes, in source order:
`consoleHandler` when console capture is enabled; the three network handlers
when network capture is enabled; `frameNavigatedHandler` unconditionally. -/
def attachedListeners (o : Option RunSequenceOptions) : List Channel :=
  (if consoleEnabled o then [Channel.console] else []) ++
  (if networkEnabled o then [Channel.request, Channel.response, Channel.requestfailed]
   else []) ++
  [Channel.framenavigated]

/-- The cleanup block in the `finally` of `handler` (lines 428–439), as the
list of `page.off` unsubscriptions it makes, in source order. -/
def detachedListeners (o : Option RunSequenceOptions) : List Channel :=
  (if consoleEnabled o then [Channel.console] else []) ++
  (if networkEnabled o then [Channel.request, Channel.response, Channel.requestfailed]
   else []) ++
  [Channel.framenavigated]

/-- `Session` from `src/session.ts` (the `createdAt : Date` field is
wall-clock data outside the embedding). -/
structure Session where
  id : String
  page : PageEnv

/-- `getSession` from `src/session.ts`: lookup in the registry (the `Map` is
modelled as a list with unique ids in registration order). -/
def getSession (sessions : List Session) (sessionId : String) : Option Session :=
  sessions.find? (fun s => s.id == sessionId)

/-- `listSessions` from `src/session.ts`: the registered ids in order. -/
def listSessions (sessions : List Session) : List String :=
  sessions.map (fun s => s.id)

/-- What the step loop of `handler` accumulates (lines 284, 374–376):
the event log, the `completed` counter, `failedAt`, `failureReason`, and —
for bookkeeping that the claims inspect — the indices at which the loop
actually called `executeStep`. -/
structure LoopResult where
  events : List Event
  completed : Nat
  failedAt : Option Nat
  failureReason : Option String
  dispatched : List Nat
deriving Repr, DecidableEq

/-- The step loop of `handler` (`src/tools/run-sequence.ts` lines 378–427),
written as structural recursion over the remaining steps with `i` the index
of the head.

`dispatch i st` is the outcome of `await executeStep(page, step)` at loop
iteration `i` (`Except.error msg` models the dispatch throwing an error whose
message is `msg`, the case the inner `catch` handles).  `during i` is the list
of collector-callback events that fire while iteration `i` is suspended at its
awaits; the source pushes them onto `events` before the iteration's own
terminal step event.  Between iterations the single-threaded loop performs no
await, so no callback runs there.

Mirrors the source exactly: a successful result appends a step event and
increments `completed`; a returned failure appends the step event, sets
`failedAt`/`failureReason` (`result.error || 'Step failed'`) and breaks; a
thrown error is caught, appends a failing step event carrying the message
(and no `data`), sets `failedAt`/`failureReason` to it and breaks. -/
def runLoop (dispatch : Nat → Step → Except String StepExecutionResult)
    (during : Nat → List CollectorEvent) : List Step → Nat → LoopResult
  | [], _ => { events := [], completed := 0, failedAt := none, failureReason := none,
               dispatched := [] }
  | st :: rest, i =>
    let pre := (during i).map Event.collector
    match dispatch i st with
    | .ok r =>
      if r.success then
        let tail := runLoop dispatch during rest (i + 1)
        { events := pre ++ Event.step i st r.success r.data r.error :: tail.events,
          completed := tail.completed + 1,
          failedAt := tail.failedAt,
          failureReason := tail.failureReason,
          dispatched := i :: tail.dispatched }
      else
        { events := pre ++ [Event.step i st r.success r.data r.error],
          completed := 0,
          failedAt := some i,
          failureReason := some (orElseStr r.error "Step failed"),
          dispatched := [i] }
    | .error msg =>
      { events := pre ++ [Event.step i st false none (some msg)],
        completed := 0,
        failedAt := some i,
        failureReason := some msg,
        dispatched := [i] }

/-- `RunSequenceResult` from `src/tools/run-sequence.ts` (lines 109–120). -/
structure SequenceResult where
  success : Bool
  completed : Nat
  total : Nat
  failed_at : Option Nat
  failure_reason : Option String
  events : List Event
  finalUrl : String
  finalTitle : String
deriving Repr, DecidableEq

/-- What `handler` hands back to the protocol layer: the session-not-found
error payload, the assembled `RunSequenceResult`, or a rejection of the
handler's own promise (in the source reachable only from the final
`await page.title()`, which runs after the `finally` cleanup). -/
inductive HandlerOutcome where
  | notFound (error : String) (availableSessions : List String)
  | ok (r : SequenceResult)
  | raised (msg : String)
deriving Repr, DecidableEq

/-- One `handler` invocation: its outcome plus the listener subscriptions it
made and removed and the step indices it dispatched (bookkeeping the claims
inspect; empty lists mean the corresponding block never ran). -/
structure HandlerOutput where
  attached : List Channel
  detached : List Channel
  dispatched : List Nat
  outcome : HandlerOutcome
deriving Repr, DecidableEq

/-- The apostrophe character, as it appears in the session-not-found message. -/
def squote : String := String.singleton (Char.ofNat 39)

/-- The error string of the session-not-found payload
(line 278 of `src/tools/run-sequence.ts`). -/
def sessionNotFoundMsg (sessionId : String) : String :=
  "Session " ++ squote ++ sessionId ++ squote ++ " not found"

/-- `handler` from `src/tools/run-sequence.ts` (lines 272–453).

`dispatch` and `during` are the oracles described at `runLoop` (the behavior
of `executeStep` against the live page at each iteration, and the collector
callbacks firing during it).  When the session lookup fails the handler
returns the error payload before attaching any listener or dispatching any
step.  Otherwise it attaches listeners per the options, runs the loop, always
detaches in the `finally`, then reads the final page state — a rejection of
that final `await page.title()` (after cleanup) is the `raised` outcome —
and assembles the result: `success` iff `failedAt === undefined`, echoing
`completed`, `total = steps.length`, `failed_at`, `failure_reason`, the
event log, and the final url/title. -/
def handler (sessions : List Session)
    (dispatch : Nat → Step → Except String StepExecutionResult)
    (during : Nat → List CollectorEvent)
    (params : RunSequenceParams) : HandlerOutput :=
  match getSession sessions params.session with
  | none =>
    { attached := [], detached := [], dispatched := [],
      outcome := .notFound (sessionNotFoundMsg params.session) (listSessions sessions) }
  | some session =>
    let page := session.page
    let att := attachedListeners params.options
    let loop := runLoop dispatch during params.steps 0
    let det := detachedListeners params.options
    match page.title with
    | .error e =>
      { attached := att, detached := det, dispatched := loop.dispatched,
        outcome := .raised e }
    | .ok t =>
      { attached := att, detached := det, dispatched := loop.dispatched,
        outcome := .ok
          { success := loop.failedAt.isNone,
            completed := loop.completed,
            total := params.steps.length,
            failed_at := loop.failedAt,
            failure_reason := loop.failureReason,
            events := loop.events,
            finalUrl := page.url,
            finalTitle := t } }

/-- Whether a dispatch outcome counts as a successful step for the loop
(a returned result with `success: true`; both a returned failure and a
thrown error count as failing). -/
def isSuccess : Except String StepExecutionResult → Bool
  | .ok r => r.success
  | .error _ => false

/-- The indices of the step events in an event log, in log order. -/
def stepIndices (evs : List Event) : List Nat :=
  evs.filterMap (fun e =>
    match e with
    | .step i _ _ _ _ => some i
    | .collector _ => none)

/-- Whether an event is a step event recording `success: true`. -/
def isSuccessStepEvent : Event → Bool
  | .step _ _ s _ _ => s
  | .collector _ => false

/-- The number of step events in a log that recorded `success: true`. -/
def successCount (evs : List Event) : Nat :=
  (evs.filter isSuccessStepEvent).length

/-- A placeholder step for out-of-range `List.getD` indexing in theorem
statements (never reached under the stated bounds). -/
def dStep : Step := Step.assert "placeholder"


/-- Whether a handler outcome is a returned `RunSequenceResult`. -/
def isOkResult : HandlerOutcome → Bool
  | .ok _ => true
  | _ => false

/- ## Concrete instances used by the witnesses -/

/-- A one-session registry. -/
def wSessions : List Session := [{ id := "main", page := okEnv }]

def wSteps3 : List Step := [Step.assert "c0", Step.assert "c1", Step.assert "c2"]

def wParams3 : RunSequenceParams := { session := "main", steps := wSteps3 }

/-- Dispatch oracle whose second step returns a failing result. -/
def wDispatchFailAt1 : Nat → Step → Except String StepExecutionResult :=
  fun i _ =>
    if i = 1 then Except.ok { success := false, error := some "condition not met" }
    else Except.ok { success := true }

/-- Dispatch oracle where every step succeeds. -/
def wDispatchOk : Nat → Step → Except String StepExecutionResult :=
  fun _ _ => Except.ok { success := true }

/-- Dispatch oracle where every step throws. -/
def wDispatchThrow : Nat → Step → Except String StepExecutionResult :=
  fun _ _ => Except.error "boom"

def wSteps2 : List Step := [Step.assert "c0", Step.assert "c1"]

def wParams2 : RunSequenceParams := { session := "main", steps := wSteps2 }

def wParams1 : RunSequenceParams := { session := "main", steps := [Step.assert "c0"] }

def wParamsOpt : RunSequenceParams :=
  { session := "main", steps := [Step.assert "c0"],
    options := some { console := some { enabled := true },
                      network := some { enabled := true } } }

/-- No collector callbacks fire. -/
def wNoDuring : Nat → List CollectorEvent := fun _ => []

/-- Regex oracle modelling an invalid pattern (constructor always throws). -/
def rtNone : String → String → Option Bool := fun _ _ => none

/-- A step environment over `okEnv` whose collaborators all succeed. -/
def demoStepEnv : StepEnv :=
  { page := okEnv,
    checkAssertion := fun _ => Except.ok { success := true },
    describeCondition := fun c => c,
    getOverview := Except.ok "overview",
    screenshotEl := fun _ => Except.ok ("shot.png", 0),
    screenshotPage := fun _ => Except.ok ("shot.png", 0) }

/-- `okEnv` with `page.click` rejecting (e.g. selector never attached). -/
def clickFailEnv : PageEnv :=
  { okEnv with click := fun _ => Except.error "Timeout 30000ms exceeded." }

/-- `okEnv` with `page.goto` rejecting on timeout. -/
def gotoTimeoutEnv : PageEnv :=
  { okEnv with goto := fun _ => Except.error "Timeout 30000ms exceeded." }

/-- `okEnv` with the separate `waitForLoadState` call rejecting on timeout. -/
def waitTimeoutEnv : PageEnv :=
  { okEnv with waitForLoadState := Except.error "Timeout 5000ms exceeded." }

/-- The result the handler returns for `wParams2` under `wDispatchOk`. -/
def wResult2 : SequenceResult :=
  { success := true, completed := 2, total := 2, failed_at := none,
    failure_reason := none,
    events := [Event.step 0 (Step.assert "c0") true none none,
               Event.step 1 (Step.assert "c1") true none none],
    finalUrl := "http://example.com/page", finalTitle := "Example Page" }

/-- The result the handler returns for `wParams1` under `wDispatchThrow`. -/
def wResultThrow : SequenceResult :=
  { success := false, completed := 0, total := 1, failed_at := some 0,
    failure_reason := some "boom",
    events := [Event.step 0 (Step.assert "c0") false none (some "boom")],
    finalUrl := "http://example.com/page", finalTitle := "Example Page" }

/- ## Equation lemmas for the step loop -/

theorem runLoop_cons_ok_true {dispatch : Nat → Step → Except String StepExecutionResult}
    {during : Nat → List CollectorEvent} {st : Step} {rest : List Step} {i : Nat}
    {r : StepExecutionResult} (hd : dispatch i st = Except.ok r) (hr : r.success = true) :
    runLoop dispatch during (st :: rest) i =
      { events := (during i).map Event.collector ++
          Event.step i st r.success r.data r.error ::
            (runLoop dispatch during rest (i + 1)).events,
        completed := (runLoop dispatch during rest (i + 1)).completed + 1,
        failedAt := (runLoop dispatch during rest (i + 1)).failedAt,
        failureReason := (runLoop dispatch during rest (i + 1)).failureReason,
        dispatched := i :: (runLoop dispatch during rest (i + 1)).dispatched } := by
  simp only [runLoop]
  rw [hd]
  simp [hr]

theorem runLoop_cons_ok_false {dispatch : Nat → Step → Except String StepExecutionResult}
    {during : Nat → List CollectorEvent} {st : Step} {rest : List Step} {i : Nat}
    {r : StepExecutionResult} (hd : dispatch i st = Except.ok r) (hr : r.success = false) :
    runLoop dispatch during (st :: rest) i =
      { events := (during i).map Event.collector ++
          [Event.step i st r.success r.data r.error],
        completed := 0,
        failedAt := some i,
        failureReason := some (orElseStr r.error "Step failed"),
        dispatched := [i] } := by
  simp only [runLoop]
  rw [hd]
  simp [hr]

theorem runLoop_cons_error {dispatch : Nat → Step → Except String StepExecutionResult}
    {during : Nat → List CollectorEvent} {st : Step} {rest : List Step} {i : Nat}
    {msg : String} (hd : dispatch i st = Except.error msg) :
    runLoop dispatch during (st :: rest) i =
      { events := (during i).map Event.collector ++
          [Event.step i st false none (some msg)],
        completed := 0,
        failedAt := some i,
        failureReason := some msg,
        dispatched := [i] } := by
  simp only [runLoop]
  rw [hd]

/- ## Event-log bookkeeping lemmas -/

theorem stepIndices_collector_append (xs : List CollectorEvent) (l : List Event) :
    stepIndices (xs.map Event.collector ++ l) = stepIndices l := by
  simp [stepIndices]

theorem stepIndices_step_cons (i : Nat) (st : Step) (s : Bool) (d : Option DataVal)
    (e : Option String) (l : List Event) :
    stepIndices (Event.step i st s d e :: l) = i :: stepIndices l := by
  simp [stepIndices, List.filterMap_cons]

theorem successCount_collector_append (xs : List CollectorEvent) (l : List Event) :
    successCount (xs.map Event.collector ++ l) = successCount l := by
  simp [successCount, isSuccessStepEvent]

theorem successCount_step_cons (i : Nat) (st : Step) (s : Bool) (d : Option DataVal)
    (e : Option String) (l : List Event) :
    successCount (Event.step i st s d e :: l) =
      (if s then 1 else 0) + successCount l := by
  cases s <;> simp [successCount, List.filter_cons, isSuccessStepEvent, Nat.add_comm]

/- ## Loop characterization lemmas -/

/-- When the first `k` dispatches succeed and the dispatch at relative
position `k` fails (a returned failure or a throw), the loop stops there:
`completed = k`, `failedAt` is the failing index, exactly the indices up to
and including it were dispatched, and the step events are exactly those
indices in order; when the failure was a throw, `failureReason` is its
message and the failing step event carries it. -/
theorem runLoop_firstFail (dispatch : Nat → Step → Except String StepExecutionResult)
    (during : Nat → List CollectorEvent) :
    ∀ (k : Nat) (steps : List Step) (i : Nat), k < steps.length →
    (∀ j, j < k → isSuccess (dispatch (i + j) (steps.getD j dStep)) = true) →
    isSuccess (dispatch (i + k) (steps.getD k dStep)) = false →
    (runLoop dispatch during steps i).completed = k ∧
    (runLoop dispatch during steps i).failedAt = some (i + k) ∧
    (runLoop dispatch during steps i).dispatched = List.range' i (k + 1) ∧
    stepIndices (runLoop dispatch during steps i).events = List.range' i (k + 1) ∧
    (∀ msg, dispatch (i + k) (steps.getD k dStep) = Except.error msg →
      (runLoop dispatch during steps i).failureReason = some msg ∧
      Event.step (i + k) (steps.getD k dStep) false none (some msg) ∈
        (runLoop dispatch during steps i).events) := by
  intro k
  induction k with
  | zero =>
    intro steps i hk hok hfail
    cases steps with
    | nil => exact absurd hk (by simp)
    | cons st rest =>
      have hfail' : isSuccess (dispatch i st) = false := by simpa using hfail
      cases hd : dispatch i st with
      | ok r =>
        have hrs : r.success = false := by simpa [isSuccess, hd] using hfail'
        rw [runLoop_cons_ok_false hd hrs]
        refine ⟨rfl, by simp, by simp [List.range'], ?_, ?_⟩
        · simp [stepIndices_collector_append, stepIndices_step_cons, List.range', stepIndices]
        · intro msg hmsg
          rw [show i + 0 = i by omega] at hmsg
          simp [hd] at hmsg
      | error m =>
        rw [runLoop_cons_error hd]
        refine ⟨rfl, by simp, by simp [List.range'], ?_, ?_⟩
        · simp [stepIndices_collector_append, stepIndices_step_cons, List.range', stepIndices]
        · intro msg hmsg
          simp only [Nat.add_zero, List.getD_cons_zero, hd, Except.error.injEq] at hmsg
          subst hmsg
          simp
  | succ k ih =>
    intro steps i hk hok hfail
    cases steps with
    | nil => exact absurd hk (by simp)
    | cons st rest =>
      have h0 : isSuccess (dispatch i st) = true := by
        simpa using hok 0 (Nat.succ_pos k)
      cases hd : dispatch i st with
      | error m => simp [isSuccess, hd] at h0
      | ok r =>
        have hrs : r.success = true := by simpa [isSuccess, hd] using h0
        have hk' : k < rest.length := by
          simpa using Nat.lt_of_succ_lt_succ (by simpa using hk)
        have hok' : ∀ j, j < k →
            isSuccess (dispatch (i + 1 + j) (rest.getD j dStep)) = true := by
          intro j hj
          have := hok (j + 1) (Nat.succ_lt_succ hj)
          rw [show i + 1 + j = i + (j + 1) by omega]
          simpa using this
        have hfail' : isSuccess (dispatch (i + 1 + k) (rest.getD k dStep)) = false := by
          rw [show i + 1 + k = i + (k + 1) by omega]
          simpa using hfail
        obtain ⟨c1, c2, c3, c4, c5⟩ := ih rest (i + 1) hk' hok' hfail'
        rw [runLoop_cons_ok_true hd hrs]
        refine ⟨by simp [c1], ?_, ?_, ?_, ?_⟩
        · simp only [c2]
          congr 1
          omega
        · simp only [LoopResult.dispatched, c3]
          exact (List.range'_succ _ _ _).symm
        · simp only [LoopResult.events]
          rw [stepIndices_collector_append, stepIndices_step_cons, c4]
          exact (List.range'_succ _ _ _).symm
        · intro msg hmsg
          have hmsg' : dispatch (i + 1 + k) (rest.getD k dStep) = Except.error msg := by
            rw [show i + 1 + k = i + (k + 1) by omega]
            simpa using hmsg
          obtain ⟨f1, f2⟩ := c5 msg hmsg'
          refine ⟨by simp [f1], ?_⟩
          have hmem : Event.step (i + (k + 1)) ((st :: rest).getD (k + 1) dStep) false none
              (some msg) ∈ (runLoop dispatch during rest (i + 1)).events := by
            rw [show i + (k + 1) = i + 1 + k by omega]
            simpa using f2
          simp only [LoopResult.events]
          exact List.mem_append_right _ (List.mem_cons_of_mem _ hmem)

/-- When every dispatch succeeds, the loop exhausts the steps: `completed`
is the number of steps, no failure is recorded, and both the dispatched
indices and the step events are exactly all indices in order. -/
theorem runLoop_allOk (dispatch : Nat → Step → Except String StepExecutionResult)
    (during : Nat → List CollectorEvent) :
    ∀ (steps : List Step) (i : Nat),
    (∀ j, j < steps.length → isSuccess (dispatch (i + j) (steps.getD j dStep)) = true) →
    (runLoop dispatch during steps i).completed = steps.length ∧
    (runLoop dispatch during steps i).failedAt = none ∧
    (runLoop dispatch during steps i).failureReason = none ∧
    (runLoop dispatch during steps i).dispatched = List.range' i steps.length ∧
    stepIndices (runLoop dispatch during steps i).events = List.range' i steps.length := by
  intro steps
  induction steps with
  | nil =>
    intro i _
    exact ⟨rfl, rfl, rfl, rfl, rfl⟩
  | cons st rest ih =>
    intro i hok
    have h0 : isSuccess (dispatch i st) = true := by
      simpa using hok 0 (Nat.succ_pos rest.length)
    cases hd : dispatch i st with
    | error m => simp [isSuccess, hd] at h0
    | ok r =>
      have hrs : r.success = true := by simpa [isSuccess, hd] using h0
      have hok' : ∀ j, j < rest.length →
          isSuccess (dispatch (i + 1 + j) (rest.getD j dStep)) = true := by
        intro j hj
        have := hok (j + 1) (Nat.succ_lt_succ hj)
        rw [show i + 1 + j = i + (j + 1) by omega]
        simpa using this
      obtain ⟨c1, c2, c3, c4, c5⟩ := ih (i + 1) hok'
      rw [runLoop_cons_ok_true hd hrs]
      refine ⟨by simp [c1], by simp [c2], by simp [c3], ?_, ?_⟩
      · simp only [LoopResult.dispatched, c4, List.length_cons]
        exact (List.range'_succ _ _ _).symm
      · simp only [LoopResult.events, List.length_cons]
        rw [stepIndices_collector_append, stepIndices_step_cons, c5]
        exact (List.range'_succ _ _ _).symm

/-- Unconditionally, the `completed` counter equals the number of step
events in the log that recorded `success: true`. -/
theorem runLoop_completed_eq_successCount
    (dispatch : Nat → Step → Except String StepExecutionResult)
    (during : Nat → List CollectorEvent) :
    ∀ (steps : List Step) (i : Nat),
    (runLoop dispatch during steps i).completed =
      successCount (runLoop dispatch during steps i).events := by
  intro steps
  induction steps with
  | nil => intro i; rfl
  | cons st rest ih =>
    intro i
    cases hd : dispatch i st with
    | error m =>
      rw [runLoop_cons_error hd]
      simp only [LoopResult.completed, LoopResult.events]
      rw [successCount_collector_append]
      simp [successCount, isSuccessStepEvent]
    | ok r =>
      cases hrs : r.success with
      | false =>
        rw [runLoop_cons_ok_false hd hrs]
        simp only [LoopResult.completed, LoopResult.events]
        rw [successCount_collector_append]
        simp [successCount, isSuccessStepEvent, hrs]
      | true =>
        rw [runLoop_cons_ok_true hd hrs]
        simp only [LoopResult.completed, LoopResult.events, hrs]
        rw [successCount_collector_append, successCount_step_cons]
        simp [ih (i + 1), Nat.add_comm]

/- ## Handler plumbing -/

/-- Characterization of one `handler` invocation when the session lookup
succeeds: the listener bookkeeping, the loop bookkeeping, how the returned
`SequenceResult` (when one is returned) is assembled from the loop, and that
a result is returned whenever the final `page.title()` read resolves. -/
theorem handler_found (sessions : List Session)
    (dispatch : Nat → Step → Except String StepExecutionResult)
    (during : Nat → List CollectorEvent) (params : RunSequenceParams)
    (session : Session)
    (hs : getSession sessions params.session = some session) :
    (handler sessions dispatch during params).attached = attachedListeners params.options ∧
    (handler sessions dispatch during params).detached = detachedListeners params.options ∧
    (handler sessions dispatch during params).dispatched =
      (runLoop dispatch during params.steps 0).dispatched ∧
    (∀ r, (handler sessions dispatch during params).outcome = HandlerOutcome.ok r →
      r.success = (runLoop dispatch during params.steps 0).failedAt.isNone ∧
      r.completed = (runLoop dispatch during params.steps 0).completed ∧
      r.total = params.steps.length ∧
      r.failed_at = (runLoop dispatch during params.steps 0).failedAt ∧
      r.failure_reason = (runLoop dispatch during params.steps 0).failureReason ∧
      r.events = (runLoop dispatch during params.steps 0).events) ∧
    (∀ t, session.page.title = Except.ok t →
      ∃ r, (handler sessions dispatch during params).outcome = HandlerOutcome.ok r) := by
  simp only [handler, hs]
  cases ht : session.page.title with
  | error e =>
    simp only [ht]
    refine ⟨trivial, trivial, trivial, ?_, ?_⟩
    · intro r hr
      exact absurd hr (by simp)
    · intro t htt
      cases htt
  | ok t =>
    simp only [ht]
    refine ⟨trivial, trivial, trivial, ?_, ?_⟩
    · intro r hr
      cases hr
      exact ⟨rfl, rfl, rfl, rfl, rfl, rfl⟩
    · intro t2 _
      exact ⟨_, rfl⟩

/- ## Claim theorems -/

/-- C1: For every sequence run on an existing session whose steps contain a
first failing step at 0-indexed position k (every earlier dispatch succeeds,
the dispatch at k fails — by returned failure or by throw), the returned
`SequenceResult` has `completed = k`, `failed_at = k`, `success = false`, no
Step event exists for any index > k (the step-event indices are exactly
0..k, in order), and no step after index k is dispatched. -/
theorem firstFailure_halts_sequence
    (sessions : List Session)
    (dispatch : Nat → Step → Except String StepExecutionResult)
    (during : Nat → List CollectorEvent) (params : RunSequenceParams)
    (session : Session) (k : Nat)
    (hs : getSession sessions params.session = some session)
    (hk : k < params.steps.length)
    (hok : ∀ j, j < k → isSuccess (dispatch j (params.steps.getD j dStep)) = true)
    (hfail : isSuccess (dispatch k (params.steps.getD k dStep)) = false) :
    (handler sessions dispatch during params).dispatched = List.range (k + 1) ∧
    ∀ r, (handler sessions dispatch during params).outcome = HandlerOutcome.ok r →
      r.completed = k ∧ r.failed_at = some k ∧ r.success = false ∧
      stepIndices r.events = List.range (k + 1) := by
  obtain ⟨_, _, hdisp, hres, _⟩ := handler_found sessions dispatch during params session hs
  obtain ⟨c1, c2, c3, c4, _⟩ :=
    runLoop_firstFail dispatch during k params.steps 0 hk
      (by intro j hj; simpa using hok j hj) (by simpa using hfail)
  constructor
  · rw [hdisp, c3, List.range_eq_range' (k + 1)]
  · intro r hro
    obtain ⟨e1, e2, _, e3, _, e4⟩ := hres r hro
    refine ⟨by rw [e2, c1], by rw [e3, c2]; simp, ?_, ?_⟩
    · rw [e1, c2]
      rfl
    · rw [e4, c4, List.range_eq_range' (k + 1)]

/-- Witness for C1 at a concrete instance: three assert steps, the second
returns a failing result. -/
theorem firstFailure_halts_sequence_witness :
    (handler wSessions wDispatchFailAt1 wNoDuring wParams3).dispatched = List.range 2 ∧
    ∀ r, (handler wSessions wDispatchFailAt1 wNoDuring wParams3).outcome =
        HandlerOutcome.ok r →
      r.completed = 1 ∧ r.failed_at = some 1 ∧ r.success = false ∧
      stepIndices r.events = List.range 2 :=
  firstFailure_halts_sequence wSessions wDispatchFailAt1 wNoDuring wParams3
    { id := "main", page := okEnv } 1 rfl (by decide) (by decide) (by decide)

/-- C2: an all-success sequence of N steps yields `completed = N`, absent
`failed_at`, `success = true`, and exactly the N step events in index order;
moreover in every returned result, `failed_at` is set iff `success` is
false, and `completed` equals the number of step events recording
`success: true`. -/
theorem allSuccess_result_and_invariants :
    (∀ (sessions : List Session)
      (dispatch : Nat → Step → Except String StepExecutionResult)
      (during : Nat → List CollectorEvent) (params : RunSequenceParams)
      (session : Session),
      getSession sessions params.session = some session →
      (∀ j, j < params.steps.length →
        isSuccess (dispatch j (params.steps.getD j dStep)) = true) →
      ∀ r, (handler sessions dispatch during params).outcome = HandlerOutcome.ok r →
        r.completed = params.steps.length ∧ r.failed_at = none ∧ r.success = true ∧
        stepIndices r.events = List.range params.steps.length) ∧
    (∀ (sessions : List Session)
      (dispatch : Nat → Step → Except String StepExecutionResult)
      (during : Nat → List CollectorEvent) (params : RunSequenceParams)
      (r : SequenceResult),
      (handler sessions dispatch during params).outcome = HandlerOutcome.ok r →
        (r.failed_at.isSome = true ↔ r.success = false) ∧
        r.completed = successCount r.events) := by
  constructor
  · intro sessions dispatch during params session hs hok r hro
    obtain ⟨_, _, _, hres, _⟩ := handler_found sessions dispatch during params session hs
    obtain ⟨c1, c2, c3, _, c5⟩ :=
      runLoop_allOk dispatch during params.steps 0 (by intro j hj; simpa using hok j hj)
    obtain ⟨e1, e2, _, e3, _, e4⟩ := hres r hro
    refine ⟨by rw [e2, c1], by rw [e3, c2], ?_, ?_⟩
    · rw [e1, c2]
      rfl
    · rw [e4, c5, List.range_eq_range' params.steps.length]
  · intro sessions dispatch during params r hro
    cases hg : getSession sessions params.session with
    | none =>
      rw [show (handler sessions dispatch during params).outcome =
          HandlerOutcome.notFound (sessionNotFoundMsg params.session)
            (listSessions sessions) by simp [handler, hg]] at hro
      cases hro
    | some session =>
      obtain ⟨_, _, _, hres, _⟩ := handler_found sessions dispatch during params session hg
      obtain ⟨e1, e2, _, e3, _, e4⟩ := hres r hro
      constructor
      · rw [e1, e3]
        cases (runLoop dispatch during params.steps 0).failedAt <;> simp
      · rw [e2, e4]
        exact runLoop_completed_eq_successCount dispatch during params.steps 0

/-- Witness for C2 at a concrete instance: two assert steps, both
dispatches succeed; the handler returns `wResult2`. -/
theorem allSuccess_result_and_invariants_witness :
    (wResult2.completed = 2 ∧ wResult2.failed_at = none ∧ wResult2.success = true ∧
      stepIndices wResult2.events = List.range 2) ∧
    ((wResult2.failed_at.isSome = true ↔ wResult2.success = false) ∧
      wResult2.completed = successCount wResult2.events) :=
  ⟨allSuccess_result_and_invariants.1 wSessions wDispatchOk wNoDuring wParams2
      { id := "main", page := okEnv } rfl (by decide) wResult2 rfl,
   allSuccess_result_and_invariants.2 wSessions wDispatchOk wNoDuring wParams2
      wResult2 rfl⟩

/-- C3: when the dispatch of a step throws (every earlier dispatch having
succeeded), the executor catches it locally: the thrown message becomes that
step's failing Step event error (with no `data`) and the run's
`failure_reason`, the sequence halts there — and the handler still returns a
`SequenceResult` rather than letting the exception propagate (here under the
proviso that the final page-title read resolves, the only later await). -/
theorem stepThrow_contained
    (sessions : List Session)
    (dispatch : Nat → Step → Except String StepExecutionResult)
    (during : Nat → List CollectorEvent) (params : RunSequenceParams)
    (session : Session) (k : Nat) (msg : String) (t : String)
    (hs : getSession sessions params.session = some session)
    (hk : k < params.steps.length)
    (hok : ∀ j, j < k → isSuccess (dispatch j (params.steps.getD j dStep)) = true)
    (hthrow : dispatch k (params.steps.getD k dStep) = Except.error msg)
    (ht : session.page.title = Except.ok t) :
    isOkResult (handler sessions dispatch during params).outcome = true ∧
    ∀ r, (handler sessions dispatch during params).outcome = HandlerOutcome.ok r →
      r.failure_reason = some msg ∧
      Event.step k (params.steps.getD k dStep) false none (some msg) ∈ r.events ∧
      r.failed_at = some k ∧ r.success = false := by
  obtain ⟨_, _, _, hres, hok'⟩ := handler_found sessions dispatch during params session hs
  obtain ⟨c1, c2, c3, c4, c5⟩ :=
    runLoop_firstFail dispatch during k params.steps 0 hk
      (by intro j hj; simpa using hok j hj)
      (by rw [show (0:Nat) + k = k by omega, hthrow]; rfl)
  obtain ⟨f1, f2⟩ := c5 msg (by simpa using hthrow)
  constructor
  · obtain ⟨r, hr⟩ := hok' t ht
    rw [hr]
    rfl
  · intro r hro
    obtain ⟨e1, _, _, e3, e5, e4⟩ := hres r hro
    refine ⟨by rw [e5, f1], ?_, by rw [e3, c2]; simp, ?_⟩
    · rw [e4]
      simpa using f2
    · rw [e1, c2]
      rfl

/-- Witness for C3 at a concrete instance: one assert step whose dispatch
throws "boom". -/
theorem stepThrow_contained_witness :
    isOkResult (handler wSessions wDispatchThrow wNoDuring wParams1).outcome = true ∧
    ∀ r, (handler wSessions wDispatchThrow wNoDuring wParams1).outcome =
        HandlerOutcome.ok r →
      r.failure_reason = some "boom" ∧
      Event.step 0 (wParams1.steps.getD 0 dStep) false none (some "boom") ∈ r.events ∧
      r.failed_at = some 0 ∧ r.success = false :=
  stepThrow_contained wSessions wDispatchThrow wNoDuring wParams1
    { id := "main", page := okEnv } 0 "boom" "Example Page" rfl (by decide)
    (by decide) rfl rfl

/-- C4: whenever the sequence starts (the session exists), every page-event
listener attached at the start is detached before the handler hands anything
back — for every dispatch oracle (all steps succeeding, a step failing, a
step throwing) and even when the final title read raises. -/
theorem listeners_always_detached
    (sessions : List Session)
    (dispatch : Nat → Step → Except String StepExecutionResult)
    (during : Nat → List CollectorEvent) (params : RunSequenceParams)
    (session : Session)
    (hs : getSession sessions params.session = some session) :
    (handler sessions dispatch during params).attached = attachedListeners params.options ∧
    (handler sessions dispatch during params).detached =
      (handler sessions dispatch during params).attached := by
  obtain ⟨a1, a2, _⟩ := handler_found sessions dispatch during params session hs
  refine ⟨a1, ?_⟩
  rw [a2, a1]
  rfl

/-- Witness for C4 at a concrete instance: console and network capture both
enabled, the single step throwing. -/
theorem listeners_always_detached_witness :
    (handler wSessions wDispatchThrow wNoDuring wParamsOpt).attached =
      attachedListeners wParamsOpt.options ∧
    (handler wSessions wDispatchThrow wNoDuring wParamsOpt).detached =
      (handler wSessions wDispatchThrow wNoDuring wParamsOpt).attached :=
  listeners_always_detached wSessions wDispatchThrow wNoDuring wParamsOpt
    { id := "main", page := okEnv } rfl

/-- C5: when the named session is not registered, the handler returns the
error payload with message `Session '<id>' not found` and the list of
available sessions — not a `SequenceResult` — and dispatches no step and
attaches no listener. -/
theorem unknownSession_error_payload
    (sessions : List Session)
    (dispatch : Nat → Step → Except String StepExecutionResult)
    (during : Nat → List CollectorEvent) (params : RunSequenceParams)
    (hns : params.session ∉ listSessions sessions) :
    (handler sessions dispatch during params).outcome =
      HandlerOutcome.notFound (sessionNotFoundMsg params.session) (listSessions sessions) ∧
    (handler sessions dispatch during params).dispatched = [] ∧
    (handler sessions dispatch during params).attached = [] := by
  have hg : getSession sessions params.session = none := by
    unfold getSession
    rw [List.find?_eq_none]
    intro s hsm
    simp only [beq_iff_eq]
    intro he
    exact hns (by
      have h2 : s.id ∈ List.map (fun x : Session => x.id) sessions :=
        List.mem_map_of_mem (fun x : Session => x.id) hsm
      rw [he] at h2
      simpa [listSessions] using h2)
  simp [handler, hg]

/-- Witness for C5 at a concrete instance: the registry holds only "main",
the request names "ghost". -/
theorem unknownSession_error_payload_witness :
    (handler wSessions wDispatchOk wNoDuring
        { session := "ghost", steps := wSteps2 }).outcome =
      HandlerOutcome.notFound (sessionNotFoundMsg "ghost") (listSessions wSessions) ∧
    (handler wSessions wDispatchOk wNoDuring
        { session := "ghost", steps := wSteps2 }).dispatched = [] ∧
    (handler wSessions wDispatchOk wNoDuring
        { session := "ghost", steps := wSteps2 }).attached = [] :=
  unknownSession_error_payload wSessions wDispatchOk wNoDuring
    { session := "ghost", steps := wSteps2 } (by decide)

/-- C8: with console capture disabled (or no console option at all) no
Console event is recorded regardless of the messages; with capture enabled
at level `error`, messages at `debug`, `log` and `info` are never captured;
and the numeric severity order is `debug < log < info < warn < error` with
minimum priority 3 for `warn` and 4 for `error`. -/
theorem console_capture_disable_and_level :
    (∀ (rt : String → String → Option Bool) (msgs : List (String × String)),
      consoleRecorded rt none msgs = []) ∧
    (∀ (rt : String → String → Option Bool) (opts : Option RunSequenceOptions)
      (msgs : List (String × String)),
      consoleEnabled opts = false → consoleRecorded rt opts msgs = []) ∧
    (∀ (rt : String → String → Option Bool) (level message : String)
      (filter : Option String),
      level = "debug" ∨ level = "log" ∨ level = "info" →
      shouldCaptureConsole rt level message
        (some { enabled := true, level := some "error", filter := filter }) = false) ∧
    (∀ (rt : String → String → Option Bool) (opts : Option RunSequenceOptions)
      (c : ConsoleCapture) (msgs : List (String × String)),
      consoleOpts opts = some c → c.enabled = true → c.level = some "error" →
      (∀ m ∈ msgs, m.1 = "debug" ∨ m.1 = "log" ∨ m.1 = "info") →
      consoleRecorded rt opts msgs = []) ∧
    minPriorityFor "warn" = 3 ∧ minPriorityFor "error" = 4 ∧
    consoleLevelPriority "debug" = some 0 ∧ consoleLevelPriority "log" = some 1 ∧
    consoleLevelPriority "info" = some 2 ∧ consoleLevelPriority "warn" = some 3 ∧
    consoleLevelPriority "error" = some 4 := by
  have hlev : ∀ (rt : String → String → Option Bool) (level message : String)
      (filter : Option String),
      level = "debug" ∨ level = "log" ∨ level = "info" →
      shouldCaptureConsole rt level message
        (some { enabled := true, level := some "error", filter := filter }) = false := by
    intro rt level message filter h
    rcases h with h | h | h <;> subst h <;>
      simp [shouldCaptureConsole, orElseStr, consoleLevelPriority, minPriorityFor,
        show String.isEmpty "error" = false from rfl]
  refine ⟨?_, ?_, hlev, ?_, rfl, rfl, rfl, rfl, rfl, rfl, rfl⟩
  · intro rt msgs
    rfl
  · intro rt opts msgs hdis
    simp [consoleRecorded, hdis]
  · intro rt opts c msgs hco hen hlv hmsgs
    have hce : consoleEnabled opts = true := by simp [consoleEnabled, hco, hen]
    simp only [consoleRecorded, hce, if_true]
    rw [List.filter_eq_nil_iff.mpr, List.map_nil]
    intro m hm
    have hc : c = { enabled := true, level := some "error", filter := c.filter } := by
      cases c
      simp_all
    rw [hco, hc]
    simp [hlev rt m.1 m.2 c.filter (hmsgs m hm)]

/-- Witness for C8 at concrete inputs: capture disabled drops an error
message; capture enabled at level `error` drops a `log` message. -/
theorem console_capture_disable_and_level_witness :
    consoleRecorded rtNone none [("error", "boom")] = [] ∧
    consoleRecorded rtNone
      (some { console := some { enabled := false }, network := none })
      [("error", "boom")] = [] ∧
    shouldCaptureConsole rtNone "log" "hello"
      (some { enabled := true, level := some "error", filter := none }) = false ∧
    consoleRecorded rtNone
      (some { console := some { enabled := true, level := some "error" },
              network := none })
      [("log", "hello"), ("debug", "d"), ("info", "i")] = [] :=
  ⟨console_capture_disable_and_level.1 rtNone [("error", "boom")],
   console_capture_disable_and_level.2.1 rtNone
     (some { console := some { enabled := false }, network := none })
     [("error", "boom")] rfl,
   console_capture_disable_and_level.2.2.1 rtNone "log" "hello" none
     (Or.inr (Or.inl rfl)),
   console_capture_disable_and_level.2.2.2.1 rtNone
     (some { console := some { enabled := true, level := some "error" },
             network := none })
     { enabled := true, level := some "error" }
     [("log", "hello"), ("debug", "d"), ("info", "i")] rfl rfl rfl (by decide)⟩

/-- C9 counterexample: with no options at all — so neither the console nor
the network collector is enabled, and there is no option that could enable
the navigation collector — the handler still attaches a listener (the
`framenavigated` subscription is unconditional), refuting "a collector that
is not enabled attaches no listener at all" and "each collector (console,
network, navigation) is independently toggled by the caller's options". -/
theorem collector_toggle_counterexample :
    consoleEnabled none = false ∧ networkEnabled none = false ∧
    attachedListeners none = [Channel.framenavigated] ∧
    attachedListeners none ≠ [] := by
  refine ⟨rfl, rfl, rfl, ?_⟩
  decide

/-- C9 amended: the console and network collectors are independently toggled
by the caller's options — enabling one attaches exactly one listener per its
underlying page event channels (console: the `console` channel; network:
`request`, `response`, `requestfailed`), a disabled one attaches none — while
the navigation collector is not option-controlled: exactly one
`framenavigated` listener is attached on every invocation. -/
theorem collector_listener_counts (o : Option RunSequenceOptions) :
    (attachedListeners o).count Channel.console =
      (if consoleEnabled o then 1 else 0) ∧
    (attachedListeners o).count Channel.request =
      (if networkEnabled o then 1 else 0) ∧
    (attachedListeners o).count Channel.response =
      (if networkEnabled o then 1 else 0) ∧
    (attachedListeners o).count Channel.requestfailed =
      (if networkEnabled o then 1 else 0) ∧
    (attachedListeners o).count Channel.framenavigated = 1 := by
  cases hc : consoleEnabled o <;> cases hn : networkEnabled o <;>
    simp [attachedListeners, hc, hn]

/-- When validation computes an error, `performAction` raises exactly it —
for every page oracle, i.e. without any page interaction. -/
theorem performAction_paramError_some (p : ActionParams) (m : String)
    (hm : paramError p = some m) (env : PageEnv) :
    performAction env p = Except.error m := by
  unfold paramError at hm
  unfold performAction
  split_ifs at hm <;> simp_all

/-- All of `okEnv`'s operations resolve. -/
theorem okEnv_total : EnvTotal okEnv :=
  ⟨fun _ => rfl, rfl, rfl, fun _ => rfl, fun _ _ => rfl, fun _ _ => rfl, fun _ => rfl,
   fun _ => rfl, fun _ _ => rfl, fun _ => rfl, fun _ _ => rfl, fun _ => rfl,
   ⟨"Example Page", rfl⟩⟩

/-- With valid parameters and a page whose operations all resolve,
`performAction` returns a result. -/
theorem performAction_valid_total (p : ActionParams) (ht : p.type ∈ handledActionTypes)
    (hv : paramError p = none) (env : PageEnv) (he : EnvTotal env) :
    (performAction env p).isOk = true := by
  obtain ⟨h1, h2, h3, h4, h5, h6, h7, h8, h9, h10, h11, h12, t, h13⟩ := he
  simp only [handledActionTypes, List.mem_cons, List.not_mem_nil, or_false] at ht
  unfold paramError at hv
  unfold performAction
  rcases ht with h | h | h | h | h | h | h | h | h | h <;>
    simp_all [h1, h2, h3, h4, h5, h6, h7, h8, h9, h10, h11, h12, h13] <;>
    (try split_ifs) <;>
    simp_all [Except.isOk, Except.toBool, bind, Except.bind]

/-- C6 counterexample: a `click` whose required selector is present (valid
parameters) still raises when the page interaction itself rejects — refuting
"for every invocation whose parameters are valid, it always returns a result
object and never raises". -/
theorem performAction_valid_can_raise :
    paramError { type := "click", selector := some "#btn" } = none ∧
    performAction clickFailEnv { type := "click", selector := some "#btn" } =
      Except.error "Timeout 30000ms exceeded." :=
  ⟨rfl, rfl⟩

/-- C6 amended: `performAction` raises a parameter-validation error, before
any page interaction (the outcome is the same under every page oracle),
exactly when a required parameter for the given action type is missing
(`paramError` computes some error); with valid parameters it raises no
validation error and returns a result object whenever the page interactions
themselves all resolve — a raise with valid parameters can only originate
from a page interaction. -/
theorem performAction_validation_exact (p : ActionParams)
    (ht : p.type ∈ handledActionTypes) :
    (∀ m, paramError p = some m → ∀ env env2 : PageEnv,
      performAction env p = Except.error m ∧
      performAction env p = performAction env2 p) ∧
    (paramError p = none → ∀ env : PageEnv, EnvTotal env →
      (performAction env p).isOk = true) := by
  constructor
  · intro m hm env env2
    exact ⟨performAction_paramError_some p m hm env,
      by rw [performAction_paramError_some p m hm env,
             performAction_paramError_some p m hm env2]⟩
  · intro hv env he
    exact performAction_valid_total p ht hv env he

/-- Witness for C6 at concrete inputs: `fill` without a value raises the
validation error under every page oracle; `fill` with selector and value
returns a result. -/
theorem performAction_validation_exact_witness :
    performAction okEnv { type := "fill", selector := some "#q" } =
      Except.error "fill requires value parameter" ∧
    performAction okEnv { type := "fill", selector := some "#q" } =
      performAction clickFailEnv { type := "fill", selector := some "#q" } ∧
    (performAction okEnv
        { type := "fill", selector := some "#q", value := some "hi" }).isOk = true :=
  ⟨((performAction_validation_exact { type := "fill", selector := some "#q" }
      (by decide)).1 "fill requires value parameter" rfl okEnv clickFailEnv).1,
   ((performAction_validation_exact { type := "fill", selector := some "#q" }
      (by decide)).1 "fill requires value parameter" rfl okEnv clickFailEnv).2,
   (performAction_validation_exact
      { type := "fill", selector := some "#q", value := some "hi" }
      (by decide)).2 rfl okEnv okEnv_total⟩

/-- C7 counterexample: for `navigate` the minimal-load-state wait is the
`waitUntil: domcontentloaded` inside `page.goto` itself; when that wait times
out the promise rejects and `performAction` raises instead of returning a
success result — refuting the claim for navigate (back and forward carry the
same option in `goBack`/`goForward`). -/
theorem navigate_wait_timeout_fails :
    paramError { type := "navigate", url := some "http://x/" } = none ∧
    performAction gotoTimeoutEnv { type := "navigate", url := some "http://x/" } =
      Except.error "Timeout 30000ms exceeded." :=
  ⟨rfl, rfl⟩

/-- C7 amended: for `click` and `press` the post-action load-state wait is
the separate `page.waitForLoadState('domcontentloaded')` call whose rejection
is swallowed by `.catch`, so a timeout of that wait never fails the action:
whenever the interaction itself succeeds, `performAction` returns a success
result even while the wait rejects.  (For navigate/back/forward the load wait
is part of the navigation call itself and its timeout propagates — see the
counterexample.) -/
theorem clickPress_wait_best_effort (env : PageEnv) (p : ActionParams) (wmsg : String)
    (hw : env.waitForLoadState = Except.error wmsg) :
    (p.type = "click" → falsy p.selector = false →
      env.click (p.selector.getD "") = Except.ok () →
      (performAction env p).isOk = true) ∧
    (p.type = "press" → falsy p.selector = false →
      (∀ s v, env.press s v = Except.ok ()) →
      (performAction env p).isOk = true) ∧
    (p.type = "press" → falsy p.selector = true → falsy p.value = false →
      (∀ v, env.keyboardPress v = Except.ok ()) →
      (performAction env p).isOk = true) := by
  refine ⟨?_, ?_, ?_⟩
  · intro h hsel hclick
    simp [performAction, h, hsel, hclick, Except.isOk, Except.toBool, bind, Except.bind,
      pure, Except.pure]
  · intro h hsel hpress
    simp [performAction, h, hsel, hpress, Except.isOk, Except.toBool, bind, Except.bind,
      pure, Except.pure]
  · intro h hsel hval hkb
    simp [performAction, h, hsel, hval, hkb, Except.isOk, Except.toBool, bind, Except.bind,
      pure, Except.pure]

/-- Witness for C7 at concrete inputs: a page whose load-state wait rejects
on timeout, with a click and a keyboard press both succeeding. -/
theorem clickPress_wait_best_effort_witness :
    waitTimeoutEnv.waitForLoadState = Except.error "Timeout 5000ms exceeded." ∧
    (performAction waitTimeoutEnv { type := "click", selector := some "#go" }).isOk
      = true ∧
    (performAction waitTimeoutEnv { type := "press", value := some "Enter" }).isOk
      = true :=
  ⟨rfl,
   (clickPress_wait_best_effort waitTimeoutEnv
      { type := "click", selector := some "#go" } "Timeout 5000ms exceeded." rfl).1
     rfl rfl rfl,
   (clickPress_wait_best_effort waitTimeoutEnv
      { type := "press", value := some "Enter" } "Timeout 5000ms exceeded." rfl).2.2
     rfl rfl rfl (fun _ => rfl)⟩

/-- C10: the run_sequence input schema accepts the action type `highlight`
while `performAction` handles only its ten cases; any other type reaches the
default case and throws `Unknown action type: <type>`; within a sequence
such an action step — all earlier steps succeeding — is recorded as the
failing Step event carrying that message and the sequence halts at its
index (it contributes nothing to `completed`). -/
theorem unknownAction_throws_and_halts :
    ("highlight" ∈ schemaActionEnum ∧ "highlight" ∉ handledActionTypes) ∧
    (∀ (t : String), t ∉ handledActionTypes → ∀ (env : PageEnv) (a : ActionParams),
      a.type = t → performAction env a = Except.error ("Unknown action type: " ++ t)) ∧
    (∀ (senv : StepEnv) (steps : List Step) (during : Nat → List CollectorEvent)
      (k : Nat) (a : ActionParams),
      k < steps.length → steps.getD k dStep = Step.action a →
      a.type ∉ handledActionTypes →
      (∀ j, j < k → isSuccess (executeStep senv (steps.getD j dStep)) = true) →
      (runLoop (fun _ st => executeStep senv st) during steps 0).failedAt = some k ∧
      (runLoop (fun _ st => executeStep senv st) during steps 0).failureReason =
        some ("Unknown action type: " ++ a.type) ∧
      Event.step k (Step.action a) false none
          (some ("Unknown action type: " ++ a.type)) ∈
        (runLoop (fun _ st => executeStep senv st) during steps 0).events ∧
      (runLoop (fun _ st => executeStep senv st) during steps 0).completed = k) := by
  have hunknown : ∀ (t : String), t ∉ handledActionTypes →
      ∀ (env : PageEnv) (a : ActionParams), a.type = t →
      performAction env a = Except.error ("Unknown action type: " ++ t) := by
    intro t htm env a hat
    simp only [handledActionTypes, List.mem_cons, List.not_mem_nil, or_false,
      not_or] at htm
    subst hat
    obtain ⟨n1, n2, n3, n4, n5, n6, n7, n8, n9, n10⟩ := htm
    simp [performAction, n1, n2, n3, n4, n5, n6, n7, n8, n9, n10]
  refine ⟨⟨by decide, by decide⟩, hunknown, ?_⟩
  intro senv steps during k a hk hka hna hok
  have hstep : executeStep senv (steps.getD k dStep) =
      Except.error ("Unknown action type: " ++ a.type) := by
    rw [hka]
    simp [executeStep, executeAction, hunknown a.type hna senv.page a rfl, bind,
      Except.bind]
  obtain ⟨c1, c2, c3, c4, c5⟩ :=
    runLoop_firstFail (fun _ st => executeStep senv st) during k steps 0 hk
      (by intro j hj; simpa using hok j hj)
      (by simp only []; rw [hstep]; rfl)
  obtain ⟨f1, f2⟩ := c5 ("Unknown action type: " ++ a.type) (by simpa using hstep)
  refine ⟨by simpa using c2, f1, ?_, c1⟩
  rw [← hka]
  simpa using f2

/-- Witness for C10 at a concrete instance: a sequence whose single step is
the schema-accepted action `highlight`. -/
theorem unknownAction_throws_and_halts_witness :
    performAction okEnv { type := "highlight" } =
      Except.error ("Unknown action type: " ++ "highlight") ∧
    ((runLoop (fun _ st => executeStep demoStepEnv st) wNoDuring
        [Step.action { type := "highlight" }] 0).failedAt = some 0 ∧
      (runLoop (fun _ st => executeStep demoStepEnv st) wNoDuring
        [Step.action { type := "highlight" }] 0).failureReason =
        some ("Unknown action type: " ++ "highlight") ∧
      Event.step 0 (Step.action { type := "highlight" }) false none
          (some ("Unknown action type: " ++ "highlight")) ∈
        (runLoop (fun _ st => executeStep demoStepEnv st) wNoDuring
          [Step.action { type := "highlight" }] 0).events ∧
      (runLoop (fun _ st => executeStep demoStepEnv st) wNoDuring
        [Step.action { type := "highlight" }] 0).completed = 0) :=
  ⟨unknownAction_throws_and_halts.2.1 "highlight" (by decide) okEnv
      { type := "highlight" } rfl,
   unknownAction_throws_and_halts.2.2 demoStepEnv
      [Step.action { type := "highlight" }] wNoDuring 0 { type := "highlight" }
      (by decide) rfl (by decide) (by decide)⟩
